import Mathlib

/-!
Verification of `privsep-inet.c`, the privilege-separated network proxy of
dhcpcd.  The definitions below are a shallow embedding of the source file.

Modelled build configuration: `INET`, `INET6`, `DHCP6` and `HAVE_CAPSICUM`
are defined, `__sun` is not (the common BSD/Linux full build).  Consequently:
  * `ps_inet_startcb` has all three default-socket blocks;
  * `ps_inet_sendmsg` knows the tags `PS_BOOTP`, `PS_ND`, `PS_DHCP6`;
  * `ps_inet_dispatch` knows the tags `PS_BOOTP`, `PS_ND`, `PS_DHCP6`;
  * the lifecycle switch of `ps_inet_cmd` knows `PS_BOOTP` and `PS_DHCP6`
    (the `PS_ND` case is Solaris-only in the source).

External effects (memory allocation, `ps_dostart`, `sendmsg`) are supplied
by an environment record, and `errno` is threaded explicitly.  Registry
primitives (`ps_findprocess`, `ps_newprocess`, `ps_freeprocess`) live in
`privsep.c`, which is not part of this repository snapshot; they are
modelled from the spec where noted.
-/

namespace PrivsepInet

/-- Errno values used by the modelled code paths (plus a few spare causes
for environment-injected failures). -/
inductive Errno
  | ENOTSUP
  | EINVAL
  | ENXIOCode
  | ENOSYS
  | ENOMEM
  | EADDRINUSE
deriving DecidableEq, Repr

/-- Command flag bit 14, `PS_START` (wire format of §6: bit 14 = START). -/
def PS_START : Nat := 0x4000

/-- Command flag bit 15, `PS_STOP` (wire format of §6: bit 15 = STOP). -/
def PS_STOP : Nat := 0x8000

/-- Modelled from the spec: the protocol tags form a small closed set living
in the low 14 bits of the command word (`privsep.h` is not under `src/`, so
the concrete numeric values are chosen here: distinct small naturals).
Tag of the IPv4 service protocol (BOOTP/DHCP). -/
def PS_BOOTP : Nat := 0x0001

/-- Modelled from the spec: tag of the IPv6 neighbor-discovery protocol. -/
def PS_ND : Nat := 0x0002

/-- Modelled from the spec: tag of the IPv6 service protocol (DHCPv6). -/
def PS_DHCP6 : Nat := 0x0003

/-- Flag stripping of privsep-inet.c line 504:
`cmd = (uint16_t)(psm->ps_cmd & ~(PS_START | PS_STOP))`.  On a 16-bit
command word the complement mask is `0x3FFF`. -/
def stripCmd (c : Nat) : Nat := c &&& 0x3FFF

/-- Protocol-specific address of an identity key (`union psa` of
`struct ps_id`): absent, an IPv4 address, or an IPv6 address.  Modelled from
the spec (§3): the address union distinguishes its family structurally. -/
inductive PsAddr
  | noAddr
  | in4 (a : Nat)
  | in6 (a : Nat)
deriving DecidableEq, Repr

/-- Identity key (`struct ps_id`): protocol tag byte, interface index,
address. -/
structure PsId where
  psi_cmd : Nat
  psi_ifindex : Nat
  psi_addr : PsAddr
deriving DecidableEq, Repr

/-- Control-message header (`struct ps_msghdr`): 16-bit command word and
identity key. -/
structure PsMsghdr where
  ps_cmd : Nat
  ps_id : PsId
deriving DecidableEq, Repr

/-- Process record (`struct ps_process`): identity key, process handle, the
private channel descriptor and the worker socket descriptor. -/
structure PsProcess where
  psp_id : PsId
  psp_pid : Nat
  psp_fd : Int
  psp_work_fd : Int
deriving DecidableEq, Repr

/-- Modelled from the spec (§4.2, `ps_findprocess` lives in `privsep.c`):
`find(key)` returns the record whose key is structurally equal to the
argument, if any. -/
def ps_findprocess (reg : List PsProcess) (id : PsId) : Option PsProcess :=
  reg.find? (fun p => p.psp_id = id)

/-- Modelled from the spec (§4.2, `ps_freeprocess` lives in `privsep.c`):
`remove(key)` discards every record whose key equals the argument. -/
def ps_freeprocess (reg : List PsProcess) (id : PsId) : List PsProcess :=
  reg.filter (fun p => ¬(p.psp_id = id))

/-- Pending process record reserved by `insert(key)`: it carries the key;
pid and descriptors are filled in by the spawn step. -/
def pendingRecord (id : PsId) : PsProcess :=
  { psp_id := id, psp_pid := 0, psp_fd := -1, psp_work_fd := -1 }

/-- Modelled from the spec (§4.2, `ps_newprocess` lives in `privsep.c`):
`insert(key)` reserves a pending record for the key, or fails with the
allocation cause. -/
def ps_newprocess (reg : List PsProcess) (id : PsId) (alloc : Option Errno) :
    Except Errno (PsProcess × List PsProcess) :=
  match alloc with
  | some e => .error e
  | none => .ok (pendingRecord id, reg ++ [pendingRecord id])

/-- Registry mutation performed by a successful `ps_dostart` on the START
path: the pending record for the key becomes active, carrying the child
pid. -/
def updatePid (id : PsId) (pid : Nat) : PsProcess → PsProcess :=
  fun p => if p.psp_id = id then { p with psp_pid := pid } else p

/-- Supervisor-side state of `struct dhcpcd_ctx` used by this file: the
process registry, the default-socket descriptors, and the option flags. -/
structure Ctx where
  ps_processes : List PsProcess
  ps_data_fd : Int
  udp_rfd : Int
  udp_wfd : Int
  nd_fd : Int
  dhcp6_rfd : Int
  dhcp6_wfd : Int
  opt_ipv4 : Bool
  opt_ipv6 : Bool
  opt_dhcp6 : Bool
  opt_master : Bool
deriving DecidableEq, Repr

/-- Environment of external effects for the command path: the allocation
outcome of `ps_newprocess`, the outcome of `ps_dostart` (parent view: child
pid on success, errno cause on failure), and the `sendmsg` syscall keyed by
the destination descriptor. -/
structure Env where
  alloc : Option Errno
  dostart : Except Errno Nat
  sendmsg : Int → Except Errno Int

/-- Result of `ps_inet_cmd`: a non-negative return, a `-1` return with the
errno cause, or a failed `assert`. -/
inductive CmdResult
  | ok (n : Int)
  | err (e : Errno)
  | assertFail
deriving DecidableEq, Repr

/-- Translation of `ps_inet_sendmsg` (privsep-inet.c lines 203-239): an
existing process record routes the message to that record's worker
descriptor; otherwise the default socket of the message's protocol tag is
used; an unknown tag fails with `EINVAL`. -/
def ps_inet_sendmsg (ctx : Ctx) (env : Env) (psm : PsMsghdr) :
    Except Errno Int :=
  match ps_findprocess ctx.ps_processes psm.ps_id with
  | some psp => env.sendmsg psp.psp_work_fd
  | none =>
      if psm.ps_cmd = PS_BOOTP then env.sendmsg ctx.udp_wfd
      else if psm.ps_cmd = PS_ND then env.sendmsg ctx.nd_fd
      else if psm.ps_cmd = PS_DHCP6 then env.sendmsg ctx.dhcp6_wfd
      else .error .EINVAL

/-- Engine-side handler invoked by `ps_inet_dispatch` for a recognized
protocol tag. -/
inductive DispatchTarget
  | dhcp
  | ipv6nd
  | dhcp6
deriving DecidableEq, Repr

/-- Translation of `ps_inet_dispatch` (privsep-inet.c lines 264-290): a
recognized protocol tag hands the message to the matching engine receive
routine and returns 1; an unknown tag fails with `ENOTSUP`. -/
def ps_inet_dispatch (c : Nat) : Except Errno (DispatchTarget × Int) :=
  if c = PS_BOOTP then .ok (.dhcp, 1)
  else if c = PS_ND then .ok (.ipv6nd, 1)
  else if c = PS_DHCP6 then .ok (.dhcp6, 1)
  else .error .ENOTSUP

/-- Translation of `ps_inet_cmd` (privsep-inet.c lines 496-578), returning
the result together with the registry after the call.  The branch structure
follows the source exactly: data messages (no flags) are forwarded via
`ps_inet_sendmsg`; `PS_STOP` asserts that no record remains and returns 0;
the start-function switch rejects unknown tags with `ENOTSUP`; a missing
`PS_START` flag yields `EINVAL`; an existing record returns 1; otherwise a
pending record is inserted and the worker spawned, the record being freed
again when `ps_dostart` fails. -/
def ps_inet_cmd (ctx : Ctx) (env : Env) (psm : PsMsghdr) :
    CmdResult × List PsProcess :=
  let c := psm.ps_cmd
  let cmd := stripCmd c
  if cmd = c then
    match ps_inet_sendmsg ctx env psm with
    | .ok n => (.ok n, ctx.ps_processes)
    | .error e => (.err e, ctx.ps_processes)
  else
    let psp := ps_findprocess ctx.ps_processes psm.ps_id
    if c &&& PS_STOP ≠ 0 then
      match psp with
      | some _ => (.assertFail, ctx.ps_processes)
      | none => (.ok 0, ctx.ps_processes)
    else if ¬(cmd = PS_BOOTP ∨ cmd = PS_DHCP6) then
      (.err .ENOTSUP, ctx.ps_processes)
    else if c &&& PS_START = 0 then
      (.err .EINVAL, ctx.ps_processes)
    else
      match psp with
      | some _ => (.ok 1, ctx.ps_processes)
      | none =>
          match ps_newprocess ctx.ps_processes psm.ps_id env.alloc with
          | .error e => (.err e, ctx.ps_processes)
          | .ok (_, reg1) =>
              match env.dostart with
              | .error e => (.err e, ps_freeprocess reg1 psm.ps_id)
              | .ok pid =>
                  (.ok (Int.ofNat pid), reg1.map (updatePid psm.ps_id pid))

/-- Modelled from the spec (§4.2 and §8: a record is removed on explicit
STOP; the generic receive path `ps_recvpsmsg` lives in `privsep.c`): a full
STOP dispatch first removes the matching record from the registry and then
invokes the command callback `ps_inet_cmd`. -/
def ps_stop_dispatch (ctx : Ctx) (env : Env) (psm : PsMsghdr) :
    CmdResult × List PsProcess :=
  let reg1 :=
    if psm.ps_cmd &&& PS_STOP ≠ 0 then
      ps_freeprocess ctx.ps_processes psm.ps_id
    else ctx.ps_processes
  ps_inet_cmd { ctx with ps_processes := reg1 } env psm

/-- Environment of external effects for `ps_inet_startcb`: the result of
each default-socket constructor (descriptor or errno cause), of each
`cap_rights_limit` call (none on success, the errno cause on failure) and of
each `eloop_event_add` call (none on success, the errno cause on failure),
keyed by protocol. -/
structure StartEnv where
  open_udp : Except Errno Int
  cap_udp : Int → Option Errno
  add_udp : Int → Option Errno
  open_nd : Except Errno Int
  cap_nd : Int → Option Errno
  add_nd : Int → Option Errno
  open_dhcp6 : Except Errno Int
  cap_dhcp6 : Int → Option Errno
  add_dhcp6 : Int → Option Errno

/-- One default-socket block of `ps_inet_startcb` (the INET block is lines
119-144 of privsep-inet.c; the INET6 and DHCP6 blocks repeat the shape).
Given the previous descriptor value, whether the protocol is enabled, the
outcomes of open / `cap_rights_limit` / `eloop_event_add` and the incoming
errno, it returns the resulting descriptor, the outgoing errno and the
contribution to `ret` (1 when the socket was opened and registered).  A
`cap_rights_limit` failure with `ENOSYS` is tolerated, as in the source. -/
def ps_open_default (prevFd : Int) (enabled : Bool)
    (openRes : Except Errno Int) (capRes : Int → Option Errno)
    (addRes : Int → Option Errno) (errno : Option Errno) :
    Int × Option Errno × Nat :=
  if enabled then
    match openRes with
    | .error e => (-1, some e, 0)
    | .ok fd =>
        match capRes fd with
        | some e =>
            if e = Errno.ENOSYS then
              match addRes fd with
              | some e2 => (-1, some e2, 0)
              | none => (fd, some e, 1)
            else (-1, some e, 0)
        | none =>
            match addRes fd with
            | some e2 => (-1, some e2, 0)
            | none => (fd, errno, 1)
  else (prevFd, errno, 0)

/-- The INET block of `ps_inet_startcb`: enabled when both `DHCPCD_IPV4`
and `DHCPCD_MASTER` are set; errno starts at 0 (line 117). -/
def startcb_inet (ctx : Ctx) (env : StartEnv) : Int × Option Errno × Nat :=
  ps_open_default ctx.udp_rfd (ctx.opt_ipv4 && ctx.opt_master)
    env.open_udp env.cap_udp env.add_udp none

/-- The INET6 neighbor-discovery block of `ps_inet_startcb`: enabled when
`DHCPCD_IPV6` is set; errno threads on from the INET block. -/
def startcb_nd (ctx : Ctx) (env : StartEnv) : Int × Option Errno × Nat :=
  ps_open_default ctx.nd_fd ctx.opt_ipv6
    env.open_nd env.cap_nd env.add_nd (startcb_inet ctx env).2.1

/-- The DHCP6 block of `ps_inet_startcb`: enabled when both `DHCPCD_DHCP6`
and `DHCPCD_MASTER` are set; errno threads on from the ND block. -/
def startcb_dhcp6 (ctx : Ctx) (env : StartEnv) : Int × Option Errno × Nat :=
  ps_open_default ctx.dhcp6_rfd (ctx.opt_dhcp6 && ctx.opt_master)
    env.open_dhcp6 env.cap_dhcp6 env.add_dhcp6 (startcb_nd ctx env).2.1

/-- Count of default sockets successfully opened and registered by
`ps_inet_startcb` (the final value of `ret`). -/
def startcb_count (ctx : Ctx) (env : StartEnv) : Nat :=
  (startcb_inet ctx env).2.2 + (startcb_nd ctx env).2.2 +
    (startcb_dhcp6 ctx env).2.2

/-- Final errno state after the three blocks of `ps_inet_startcb` (`none`
models `errno == 0`). -/
def startcb_errno (ctx : Ctx) (env : StartEnv) : Option Errno :=
  (startcb_dhcp6 ctx env).2.1

/-- Translation of `ps_inet_startcb` (privsep-inet.c lines 94-201): close
the engine-side data descriptor, run the three default-socket blocks, and
return `ret`, except that `ret == 0` with errno still 0 becomes a `-1`
return with `ENXIOCode`. -/
def ps_inet_startcb (ctx : Ctx) (env : StartEnv) :
    Except Errno Int × Ctx :=
  let b1 := startcb_inet ctx env
  let b2 := startcb_nd ctx env
  let b3 := startcb_dhcp6 ctx env
  let ret := b1.2.2 + b2.2.2 + b3.2.2
  let ctx' := { ctx with
    ps_data_fd := -1, udp_rfd := b1.1, nd_fd := b2.1, dhcp6_rfd := b3.1 }
  if ret = 0 ∧ b3.2.1 = none then (.error .ENXIOCode, ctx')
  else (.ok (Int.ofNat ret), ctx')

/-- POSIX signal number of SIGINT. -/
def SIGINT : Nat := 2

/-- POSIX signal number of SIGTERM. -/
def SIGTERM : Nat := 15

/-- Exit status EXIT_SUCCESS. -/
def EXIT_SUCCESS : Nat := 0

/-- Exit status EXIT_FAILURE. -/
def EXIT_FAILURE : Nat := 1

/-- Observable effect of the signal callback: whether the control channel
was shut down, and the exit status requested from the event loop (if any). -/
structure SigEffect where
  channel_shutdown : Bool
  eloop_exit : Option Nat
deriving DecidableEq, Repr

/-- Translation of `ps_inet_signalcb` (privsep-inet.c lines 251-262):
SIGINT is ignored; any other signal shuts the control channel down and asks
the event loop to exit, with success status exactly for SIGTERM. -/
def ps_inet_signalcb (sig : Nat) : SigEffect :=
  if sig = SIGINT then { channel_shutdown := false, eloop_exit := none }
  else
    { channel_shutdown := true,
      eloop_exit :=
        some (if sig = SIGTERM then EXIT_SUCCESS else EXIT_FAILURE) }

/-! Concrete fixtures used to witness the theorems below. -/

/-- Sample identity key: BOOTP on interface 2, address 10.0.0.5. -/
def idA : PsId :=
  { psi_cmd := PS_BOOTP, psi_ifindex := 2, psi_addr := .in4 0x0A000005 }

/-- Supervisor state with an empty registry, all protocols enabled. -/
def ctx0 : Ctx :=
  { ps_processes := [], ps_data_fd := 7, udp_rfd := -1, udp_wfd := 3,
    nd_fd := 4, dhcp6_rfd := -1, dhcp6_wfd := 5, opt_ipv4 := true,
    opt_ipv6 := true, opt_dhcp6 := true, opt_master := true }

/-- Environment where every external call succeeds. -/
def env0 : Env :=
  { alloc := none, dostart := .ok 123, sendmsg := fun fd => .ok fd }

/-- Environment where the worker spawn fails with `ENOMEM`. -/
def envSpawnFail : Env :=
  { alloc := none, dostart := .error .ENOMEM, sendmsg := fun fd => .ok fd }

/-- Active worker record for `idA`. -/
def recA : PsProcess :=
  { psp_id := idA, psp_pid := 123, psp_fd := 8, psp_work_fd := 9 }

/-- Supervisor state whose registry holds the worker for `idA`. -/
def ctxA : Ctx := { ctx0 with ps_processes := [recA] }

/-- Registry produced by a successful spawn of a worker for `idA` with
child pid 123, starting from the empty registry. -/
def spawnedReg : List PsProcess :=
  [{ psp_id := idA, psp_pid := 123, psp_fd := -1, psp_work_fd := -1 }]

/-- Start environment where every open, restriction and registration
succeeds. -/
def senv0 : StartEnv :=
  { open_udp := .ok 10, cap_udp := fun _ => none, add_udp := fun _ => none,
    open_nd := .ok 11, cap_nd := fun _ => none, add_nd := fun _ => none,
    open_dhcp6 := .ok 12, cap_dhcp6 := fun _ => none,
    add_dhcp6 := fun _ => none }

/-- Start environment where the UDP open fails but the others succeed. -/
def senvUdpFail : StartEnv :=
  { senv0 with open_udp := .error .EADDRINUSE }

/-! Helper lemmas about the command-word bit operations and the registry. -/

/-- Flag stripping is reduction modulo `2 ^ 14`. -/
theorem stripCmd_eq_mod (c : Nat) : stripCmd c = c % 16384 := by
  show c &&& 0x3FFF = c % 16384
  have h : (0x3FFF : Nat) = 2 ^ 14 - 1 := by norm_num
  rw [h, Nat.and_pow_two_sub_one_eq_mod]

/-- Masking with a single bit, in divisibility terms. -/
theorem and_two_pow_div_mod (c i : Nat) :
    c &&& 2 ^ i = c / 2 ^ i % 2 * 2 ^ i := by
  rw [Nat.and_two_pow, Nat.toNat_testBit]

/-- The START test of the source, in arithmetic form. -/
theorem and_start_eq (c : Nat) : c &&& PS_START = c / 16384 % 2 * 16384 := by
  have h : PS_START = 2 ^ 14 := by norm_num [PS_START]
  rw [h, and_two_pow_div_mod]
  norm_num

/-- The STOP test of the source, in arithmetic form. -/
theorem and_stop_eq (c : Nat) : c &&& PS_STOP = c / 32768 % 2 * 32768 := by
  have h : PS_STOP = 2 ^ 15 := by norm_num [PS_STOP]
  rw [h, and_two_pow_div_mod]
  norm_num

/-- A command word with the STOP bit set is changed by flag stripping. -/
theorem stripCmd_ne_of_stop {c : Nat} (h : c &&& PS_STOP ≠ 0) :
    stripCmd c ≠ c := by
  rw [stripCmd_eq_mod]
  rw [and_stop_eq] at h
  omega

/-- A command word with the START bit set is changed by flag stripping. -/
theorem stripCmd_ne_of_start {c : Nat} (h : c &&& PS_START ≠ 0) :
    stripCmd c ≠ c := by
  rw [stripCmd_eq_mod]
  rw [and_start_eq] at h
  omega

/-- A 16-bit lifecycle command word without the STOP bit has the START
bit. -/
theorem start_set_of_lifecycle_no_stop {c : Nat} (hlt : c < 65536)
    (hne : stripCmd c ≠ c) (hstop : c &&& PS_STOP = 0) :
    c &&& PS_START ≠ 0 := by
  rw [stripCmd_eq_mod] at hne
  rw [and_stop_eq] at hstop
  rw [and_start_eq]
  omega

/-- After `remove(key)`, `find(key)` returns nothing. -/
theorem ps_findprocess_freeprocess (reg : List PsProcess) (id : PsId) :
    ps_findprocess (ps_freeprocess reg id) id = none := by
  unfold ps_findprocess ps_freeprocess
  rw [List.find?_eq_none]
  intro p hp
  rw [List.mem_filter] at hp
  simpa using hp.2

/-- Removing an absent key leaves the registry unchanged. -/
theorem ps_freeprocess_of_not_found {reg : List PsProcess} {id : PsId}
    (h : ps_findprocess reg id = none) : ps_freeprocess reg id = reg := by
  unfold ps_freeprocess
  rw [List.filter_eq_self]
  unfold ps_findprocess at h
  rw [List.find?_eq_none] at h
  intro a ha
  simpa using h a ha

/-- Activating a record changes its pid but never its key. -/
theorem updatePid_preserves_key (id : PsId) (pid : Nat) :
    ((fun q : PsProcess => decide (q.psp_id = id)) ∘ updatePid id pid) =
      fun p : PsProcess => decide (p.psp_id = id) := by
  funext p
  by_cases h : p.psp_id = id <;> simp [updatePid, h]

/-- The pid update of a successful spawn commutes with `find(key)`. -/
theorem ps_findprocess_map_update (reg : List PsProcess) (id : PsId)
    (pid : Nat) :
    ps_findprocess (reg.map (updatePid id pid)) id
      = (ps_findprocess reg id).map (updatePid id pid) := by
  unfold ps_findprocess
  rw [List.find?_map, updatePid_preserves_key]

/-- A registry extended with a record for the key resolves `find(key)`. -/
theorem ps_findprocess_append_self (reg : List PsProcess) (id : PsId)
    (psp : PsProcess) (h : psp.psp_id = id) :
    ps_findprocess (reg ++ [psp]) id ≠ none := by
  intro hc
  unfold ps_findprocess at hc
  rw [List.find?_eq_none] at hc
  have := hc psp (by simp)
  simp [h] at this

/-- Registry produced by a successful spawn: the fresh record is found. -/
theorem ps_findprocess_spawned_ne_none (reg : List PsProcess) (id : PsId)
    (pid : Nat) :
    ps_findprocess ((reg ++ [pendingRecord id]).map (updatePid id pid)) id
      ≠ none := by
  rw [ps_findprocess_map_update]
  intro hc
  cases hfind : ps_findprocess (reg ++ [pendingRecord id]) id with
  | none => exact ps_findprocess_append_self reg id (pendingRecord id) rfl hfind
  | some p =>
      rw [hfind] at hc
      simp at hc

/-- Discarding the pending record of a failed spawn restores the previous
registry. -/
theorem ps_freeprocess_append_pending {reg : List PsProcess} {id : PsId}
    (h : ps_findprocess reg id = none) :
    ps_freeprocess (reg ++ [pendingRecord id]) id = reg := by
  have h1 := ps_freeprocess_of_not_found h
  unfold ps_freeprocess at h1 ⊢
  rw [List.filter_append, h1]
  simp [pendingRecord]

/-- A registry with no record for the key counts zero records for it. -/
theorem countP_eq_zero_of_not_found {reg : List PsProcess} {id : PsId}
    (h : ps_findprocess reg id = none) :
    reg.countP (fun p => p.psp_id = id) = 0 := by
  unfold ps_findprocess at h
  rw [List.find?_eq_none] at h
  rw [List.countP_eq_zero]
  exact h

/-- The registry produced by a successful spawn holds exactly one record
for the key. -/
theorem countP_spawned_eq_one {reg : List PsProcess} {id : PsId} (pid : Nat)
    (h : ps_findprocess reg id = none) :
    ((reg ++ [pendingRecord id]).map (updatePid id pid)).countP
      (fun p => p.psp_id = id) = 1 := by
  rw [List.countP_map, updatePid_preserves_key, List.countP_append,
    countP_eq_zero_of_not_found h]
  simp [pendingRecord, List.countP_cons]

/-- START path of `ps_inet_cmd` with an existing record: return 1, registry
untouched. -/
theorem ps_inet_cmd_start_existing {ctx : Ctx} {env : Env} {psm : PsMsghdr}
    (htag : stripCmd psm.ps_cmd = PS_BOOTP ∨ stripCmd psm.ps_cmd = PS_DHCP6)
    (hstart : psm.ps_cmd &&& PS_START ≠ 0)
    (hstop : psm.ps_cmd &&& PS_STOP = 0) {psp : PsProcess}
    (hfind : ps_findprocess ctx.ps_processes psm.ps_id = some psp) :
    ps_inet_cmd ctx env psm = (CmdResult.ok 1, ctx.ps_processes) := by
  have hne := stripCmd_ne_of_start hstart
  simp only [ps_inet_cmd]
  rw [if_neg hne, if_neg (not_not_intro hstop), if_neg (not_not_intro htag),
    if_neg hstart, hfind]

/-- START path of `ps_inet_cmd` with no record and a failing allocation:
the cause is returned, registry untouched. -/
theorem ps_inet_cmd_start_allocfail {ctx : Ctx} {env : Env} {psm : PsMsghdr}
    (htag : stripCmd psm.ps_cmd = PS_BOOTP ∨ stripCmd psm.ps_cmd = PS_DHCP6)
    (hstart : psm.ps_cmd &&& PS_START ≠ 0)
    (hstop : psm.ps_cmd &&& PS_STOP = 0)
    (hfind : ps_findprocess ctx.ps_processes psm.ps_id = none) {e : Errno}
    (halloc : env.alloc = some e) :
    ps_inet_cmd ctx env psm = (CmdResult.err e, ctx.ps_processes) := by
  have hne := stripCmd_ne_of_start hstart
  simp only [ps_inet_cmd]
  rw [if_neg hne, if_neg (not_not_intro hstop), if_neg (not_not_intro htag),
    if_neg hstart, hfind, halloc]
  simp [ps_newprocess]

/-- START path of `ps_inet_cmd` with no record, allocation succeeding and
`ps_dostart` failing: the pending record is freed again and the cause
returned. -/
theorem ps_inet_cmd_start_spawnfail {ctx : Ctx} {env : Env} {psm : PsMsghdr}
    (htag : stripCmd psm.ps_cmd = PS_BOOTP ∨ stripCmd psm.ps_cmd = PS_DHCP6)
    (hstart : psm.ps_cmd &&& PS_START ≠ 0)
    (hstop : psm.ps_cmd &&& PS_STOP = 0)
    (hfind : ps_findprocess ctx.ps_processes psm.ps_id = none)
    (halloc : env.alloc = none) {e : Errno}
    (hdo : env.dostart = .error e) :
    ps_inet_cmd ctx env psm =
      (CmdResult.err e,
       ps_freeprocess (ctx.ps_processes ++ [pendingRecord psm.ps_id])
         psm.ps_id) := by
  have hne := stripCmd_ne_of_start hstart
  simp only [ps_inet_cmd]
  rw [if_neg hne, if_neg (not_not_intro hstop), if_neg (not_not_intro htag),
    if_neg hstart, hfind, halloc, hdo]
  simp [ps_newprocess]

/-- START path of `ps_inet_cmd` with no record and both allocation and
spawn succeeding: the child pid is returned and the new record is active in
the registry. -/
theorem ps_inet_cmd_start_spawn {ctx : Ctx} {env : Env} {psm : PsMsghdr}
    (htag : stripCmd psm.ps_cmd = PS_BOOTP ∨ stripCmd psm.ps_cmd = PS_DHCP6)
    (hstart : psm.ps_cmd &&& PS_START ≠ 0)
    (hstop : psm.ps_cmd &&& PS_STOP = 0)
    (hfind : ps_findprocess ctx.ps_processes psm.ps_id = none)
    (halloc : env.alloc = none) {pid : Nat}
    (hdo : env.dostart = .ok pid) :
    ps_inet_cmd ctx env psm =
      (CmdResult.ok (Int.ofNat pid),
       (ctx.ps_processes ++ [pendingRecord psm.ps_id]).map
         (updatePid psm.ps_id pid)) := by
  have hne := stripCmd_ne_of_start hstart
  simp only [ps_inet_cmd]
  rw [if_neg hne, if_neg (not_not_intro hstop), if_neg (not_not_intro htag),
    if_neg hstart, hfind, halloc, hdo]
  simp [ps_newprocess]

/-! Theorems settling the claims. -/

/-- C1 falsification at a concrete input: the command word
`PS_BOOTP ||| PS_START ||| PS_STOP` with an empty registry is answered with
return value 0 by the STOP branch of `ps_inet_cmd`, not rejected with an
`ENOTSUP` error. -/
theorem c1_counterexample :
    (ps_inet_cmd ctx0 env0 ⟨PS_BOOTP ||| PS_START ||| PS_STOP, idA⟩).1 =
      CmdResult.ok 0 ∧
    CmdResult.ok 0 ≠ CmdResult.err Errno.ENOTSUP := by
  decide

/-- C1 (amended): a control message whose command word has both the START
and STOP flag bits set is handled by the STOP branch of `ps_inet_cmd`: with
no matching record it returns 0 as a stop no-op with the registry
unchanged, and with a matching record the STOP assertion fires; it is never
rejected with `ENOTSUP` and never treated as a start. -/
theorem c1_both_flags_stop_branch (ctx : Ctx) (env : Env) (psm : PsMsghdr)
    (_hstart : psm.ps_cmd &&& PS_START ≠ 0)
    (hstop : psm.ps_cmd &&& PS_STOP ≠ 0) :
    ps_inet_cmd ctx env psm =
      (match ps_findprocess ctx.ps_processes psm.ps_id with
       | some _ => (CmdResult.assertFail, ctx.ps_processes)
       | none => (CmdResult.ok 0, ctx.ps_processes)) := by
  have hne := stripCmd_ne_of_stop hstop
  simp only [ps_inet_cmd]
  rw [if_neg hne, if_pos hstop]

/-- C1 witness: the amended statement applied at the concrete both-flags
message of the counterexample. -/
theorem c1_witness :
    (PS_BOOTP ||| PS_START ||| PS_STOP) &&& PS_START ≠ 0 ∧
    ps_inet_cmd ctx0 env0 ⟨PS_BOOTP ||| PS_START ||| PS_STOP, idA⟩ =
      (CmdResult.ok 0, []) :=
  ⟨by decide,
   (c1_both_flags_stop_branch ctx0 env0
      ⟨PS_BOOTP ||| PS_START ||| PS_STOP, idA⟩
      (by decide) (by decide)).trans (by decide)⟩

/-- C3 falsification at a concrete input: a data message with the
unrecognized tag 7, no matching record and no matching default socket is
rejected by `ps_inet_sendmsg` with `EINVAL`, not with the `ENOTSUP` code
used for unsupported commands; moreover a lifecycle message with STOP set
and the unrecognized tag 7 is answered with 0 by `ps_inet_cmd`, not
rejected at all. -/
theorem c3_counterexample :
    ps_inet_sendmsg ctx0 env0 ⟨7, idA⟩ = Except.error Errno.EINVAL ∧
    Errno.EINVAL ≠ Errno.ENOTSUP ∧
    (ps_inet_cmd ctx0 env0 ⟨PS_STOP ||| 7, idA⟩).1 = CmdResult.ok 0 :=
  ⟨rfl, by decide, by decide⟩

/-- C3 (amended): an unrecognized protocol tag is rejected without a crash
on all three paths, but with different codes and one carve-out: the
lifecycle path of `ps_inet_cmd` fails with `ENOTSUP` when STOP is clear
(with STOP set the message is consumed by the stop branch before the tag is
examined); the inbound path `ps_inet_dispatch` fails with `ENOTSUP`; the
data-routing path `ps_inet_sendmsg` with no matching record fails with
`EINVAL`, picking no default target. -/
theorem c3_unknown_tag_errors (ctx : Ctx) (env : Env) (psm : PsMsghdr) :
    (stripCmd psm.ps_cmd ≠ PS_BOOTP → stripCmd psm.ps_cmd ≠ PS_DHCP6 →
      stripCmd psm.ps_cmd ≠ psm.ps_cmd → psm.ps_cmd &&& PS_STOP = 0 →
      ps_inet_cmd ctx env psm = (CmdResult.err .ENOTSUP, ctx.ps_processes)) ∧
    (psm.ps_cmd ≠ PS_BOOTP → psm.ps_cmd ≠ PS_ND → psm.ps_cmd ≠ PS_DHCP6 →
      ps_findprocess ctx.ps_processes psm.ps_id = none →
      ps_inet_sendmsg ctx env psm = .error .EINVAL) ∧
    (∀ c : Nat, c ≠ PS_BOOTP → c ≠ PS_ND → c ≠ PS_DHCP6 →
      ps_inet_dispatch c = .error .ENOTSUP) := by
  refine ⟨?_, ?_, ?_⟩
  · intro h1 h2 h3 h4
    simp only [ps_inet_cmd]
    rw [if_neg h3, if_neg (not_not_intro h4), if_pos (not_or.mpr ⟨h1, h2⟩)]
  · intro h1 h2 h3 hfind
    simp only [ps_inet_sendmsg]
    rw [hfind]
    simp [h1, h2, h3]
  · intro c h1 h2 h3
    simp [ps_inet_dispatch, h1, h2, h3]

/-- C3 witness: the amended statement applied to the unrecognized tag 7 on
each of the three paths. -/
theorem c3_witness :
    ps_inet_cmd ctx0 env0 ⟨PS_START ||| 7, idA⟩ =
      (CmdResult.err .ENOTSUP, []) ∧
    ps_inet_sendmsg ctx0 env0 ⟨7, ⟨7, 9, .noAddr⟩⟩ = .error .EINVAL ∧
    ps_inet_dispatch 7 = .error .ENOTSUP :=
  ⟨(c3_unknown_tag_errors ctx0 env0 ⟨PS_START ||| 7, idA⟩).1
      (by decide) (by decide) (by decide) (by decide),
   (c3_unknown_tag_errors ctx0 env0 ⟨7, ⟨7, 9, .noAddr⟩⟩).2.1
      (by decide) (by decide) (by decide) (by decide),
   (c3_unknown_tag_errors ctx0 env0 ⟨7, idA⟩).2.2 7
      (by decide) (by decide) (by decide)⟩

/-- C4: a lifecycle request with the STOP flag set and no matching process
record is a no-op success of `ps_inet_cmd`: return value 0 and registry
unchanged, with no record created and no process spawned. -/
theorem c4_stop_without_record_noop (ctx : Ctx) (env : Env) (psm : PsMsghdr)
    (hstop : psm.ps_cmd &&& PS_STOP ≠ 0)
    (hfind : ps_findprocess ctx.ps_processes psm.ps_id = none) :
    ps_inet_cmd ctx env psm = (CmdResult.ok 0, ctx.ps_processes) := by
  have hne := stripCmd_ne_of_stop hstop
  simp only [ps_inet_cmd]
  rw [if_neg hne, if_pos hstop, hfind]

/-- C4 witness: a STOP for the never-started key `idA` on the empty
registry succeeds as a no-op. -/
theorem c4_witness :
    (PS_BOOTP ||| PS_STOP) &&& PS_STOP ≠ 0 ∧
    ps_inet_cmd ctx0 env0 ⟨PS_BOOTP ||| PS_STOP, idA⟩ = (CmdResult.ok 0, []) :=
  ⟨by decide,
   c4_stop_without_record_noop ctx0 env0 ⟨PS_BOOTP ||| PS_STOP, idA⟩
     (by decide) (by decide)⟩

/-- C7: the signal callback makes a three-way distinction: SIGINT is
ignored (no channel shutdown, no exit request); any other signal shuts the
control channel down and requests event-loop exit, with success status
exactly for SIGTERM and failure status for every other signal. -/
theorem c7_signal_three_way (sig : Nat) :
    ps_inet_signalcb SIGINT = ⟨false, none⟩ ∧
    (sig ≠ SIGINT →
      (ps_inet_signalcb sig).channel_shutdown = true ∧
      ((ps_inet_signalcb sig).eloop_exit = some EXIT_SUCCESS ↔
        sig = SIGTERM) ∧
      (sig ≠ SIGTERM →
        (ps_inet_signalcb sig).eloop_exit = some EXIT_FAILURE)) := by
  refine ⟨rfl, ?_⟩
  intro h
  simp only [SIGINT] at h
  by_cases ht : sig = SIGTERM
  · simp [ps_inet_signalcb, SIGINT, SIGTERM, EXIT_SUCCESS, EXIT_FAILURE,
      h, ht]
  · simp only [SIGTERM] at ht
    simp [ps_inet_signalcb, SIGINT, SIGTERM, EXIT_SUCCESS, EXIT_FAILURE,
      h, ht]

/-- C7 witness: the three-way distinction evaluated at SIGKILL (9), a
signal that is neither SIGINT nor SIGTERM. -/
theorem c7_witness :
    (9 : Nat) ≠ SIGINT ∧
    (ps_inet_signalcb 9).eloop_exit = some EXIT_FAILURE :=
  ⟨by decide, ((c7_signal_three_way 9).2 (by decide)).2.2 (by decide)⟩

/-- C9: in the data-routing operation `ps_inet_sendmsg` an existing process
record always takes precedence: whenever `find` returns a record the
message is sent on that record's worker descriptor regardless of the
protocol tag, and the default-socket table is consulted only when no record
matches. -/
theorem c9_record_takes_precedence (ctx : Ctx) (env : Env) (psm : PsMsghdr) :
    (∀ psp, ps_findprocess ctx.ps_processes psm.ps_id = some psp →
      ps_inet_sendmsg ctx env psm = env.sendmsg psp.psp_work_fd) ∧
    (ps_findprocess ctx.ps_processes psm.ps_id = none →
      ps_inet_sendmsg ctx env psm =
        (if psm.ps_cmd = PS_BOOTP then env.sendmsg ctx.udp_wfd
         else if psm.ps_cmd = PS_ND then env.sendmsg ctx.nd_fd
         else if psm.ps_cmd = PS_DHCP6 then env.sendmsg ctx.dhcp6_wfd
         else .error .EINVAL)) := by
  constructor
  · intro psp h
    simp only [ps_inet_sendmsg]
    rw [h]
  · intro h
    simp only [ps_inet_sendmsg]
    rw [h]

/-- C9 witness: with the worker record for `idA` in the registry, a data
message tagged `PS_ND` is still sent on that record's worker descriptor,
not on the ND default socket. -/
theorem c9_witness :
    ps_findprocess ctxA.ps_processes idA = some recA ∧
    ps_inet_sendmsg ctxA env0 ⟨PS_ND, idA⟩ = env0.sendmsg recA.psp_work_fd :=
  ⟨by decide,
   (c9_record_takes_precedence ctxA env0 ⟨PS_ND, idA⟩).1 recA (by decide)⟩

/-- C2: after a successful START dispatch for a key, `find` returns a
record for it; a subsequent STOP dispatch for the key (the receive path
removes the record before invoking `ps_inet_cmd`) completes with return
value 0 — in particular the STOP assertion of `ps_inet_cmd`, which demands
that no matching record remain, holds on this sequence — and `find`
afterwards returns none. -/
theorem c2_start_then_stop (ctx : Ctx) (env env2 : Env) (m1 m2 : PsMsghdr)
    (n : Int) (reg1 : List PsProcess)
    (hstart : m1.ps_cmd &&& PS_START ≠ 0)
    (hnostop : m1.ps_cmd &&& PS_STOP = 0)
    (hok : ps_inet_cmd ctx env m1 = (CmdResult.ok n, reg1))
    (_hid : m2.ps_id = m1.ps_id)
    (hstop : m2.ps_cmd &&& PS_STOP ≠ 0) :
    ps_findprocess reg1 m1.ps_id ≠ none ∧
    (ps_stop_dispatch { ctx with ps_processes := reg1 } env2 m2).1 =
      CmdResult.ok 0 ∧
    ps_findprocess
      (ps_stop_dispatch { ctx with ps_processes := reg1 } env2 m2).2
      m2.ps_id = none := by
  have hne1 := stripCmd_ne_of_start hstart
  have hne2 := stripCmd_ne_of_stop hstop
  have hregfree : ps_stop_dispatch { ctx with ps_processes := reg1 } env2 m2
      = (CmdResult.ok 0, ps_freeprocess reg1 m2.ps_id) := by
    have hf := ps_findprocess_freeprocess reg1 m2.ps_id
    simp [ps_stop_dispatch, ps_inet_cmd, hstop, hne2, hf]
  refine ⟨?_, by rw [hregfree], by
    rw [hregfree]
    exact ps_findprocess_freeprocess reg1 m2.ps_id⟩
  by_cases htag : stripCmd m1.ps_cmd = PS_BOOTP ∨ stripCmd m1.ps_cmd = PS_DHCP6
  · cases hf : ps_findprocess ctx.ps_processes m1.ps_id with
    | some psp =>
        rw [ps_inet_cmd_start_existing htag hstart hnostop hf] at hok
        injection hok with h1 h2
        rw [← h2, hf]
        simp
    | none =>
        cases halloc : env.alloc with
        | some e1 =>
            rw [ps_inet_cmd_start_allocfail htag hstart hnostop hf
              halloc] at hok
            simp at hok
        | none =>
            cases hdo : env.dostart with
            | error e2 =>
                rw [ps_inet_cmd_start_spawnfail htag hstart hnostop hf
                  halloc hdo] at hok
                simp at hok
            | ok pid =>
                rw [ps_inet_cmd_start_spawn htag hstart hnostop hf halloc
                  hdo] at hok
                injection hok with h1 h2
                rw [← h2]
                exact ps_findprocess_spawned_ne_none _ _ _
  · simp [ps_inet_cmd, hne1, hnostop, htag] at hok

/-- C2 witness: START then STOP for the key `idA` starting from the empty
registry, with every external call succeeding. -/
theorem c2_witness :
    ps_findprocess spawnedReg idA ≠ none ∧
    (ps_stop_dispatch { ctx0 with ps_processes := spawnedReg } env0
      ⟨PS_BOOTP ||| PS_STOP, idA⟩).1 = CmdResult.ok 0 ∧
    ps_findprocess (ps_stop_dispatch { ctx0 with ps_processes := spawnedReg }
      env0 ⟨PS_BOOTP ||| PS_STOP, idA⟩).2 idA = none :=
  c2_start_then_stop ctx0 env0 env0 ⟨PS_BOOTP ||| PS_START, idA⟩
    ⟨PS_BOOTP ||| PS_STOP, idA⟩ 123 spawnedReg (by decide) (by decide)
    (by decide) rfl (by decide)

/-- C5: a START lifecycle request for a key with an existing record returns
success (1) without touching the registry; and starting twice from a
registry without the key (the first spawn succeeding) leaves exactly one
record for the key, the second START returning success with the registry
unchanged. -/
theorem c5_idempotent_start (ctx : Ctx) (env env2 : Env) (psm : PsMsghdr)
    (htag : stripCmd psm.ps_cmd = PS_BOOTP ∨ stripCmd psm.ps_cmd = PS_DHCP6)
    (hstart : psm.ps_cmd &&& PS_START ≠ 0)
    (hstop : psm.ps_cmd &&& PS_STOP = 0) :
    (∀ psp, ps_findprocess ctx.ps_processes psm.ps_id = some psp →
      ps_inet_cmd ctx env psm = (CmdResult.ok 1, ctx.ps_processes)) ∧
    (ps_findprocess ctx.ps_processes psm.ps_id = none →
      ∀ n reg1, ps_inet_cmd ctx env psm = (CmdResult.ok n, reg1) →
        reg1.countP (fun p => p.psp_id = psm.ps_id) = 1 ∧
        ps_inet_cmd { ctx with ps_processes := reg1 } env2 psm =
          (CmdResult.ok 1, reg1)) := by
  constructor
  · intro psp h
    exact ps_inet_cmd_start_existing htag hstart hstop h
  · intro hfind n reg1 hok
    cases halloc : env.alloc with
    | some e1 =>
        rw [ps_inet_cmd_start_allocfail htag hstart hstop hfind
          halloc] at hok
        simp at hok
    | none =>
        cases hdo : env.dostart with
        | error e2 =>
            rw [ps_inet_cmd_start_spawnfail htag hstart hstop hfind halloc
              hdo] at hok
            simp at hok
        | ok pid =>
            rw [ps_inet_cmd_start_spawn htag hstart hstop hfind halloc
              hdo] at hok
            injection hok with h1 h2
            subst h2
            refine ⟨countP_spawned_eq_one pid hfind, ?_⟩
            cases hf2 : ps_findprocess ((ctx.ps_processes ++
                [pendingRecord psm.ps_id]).map (updatePid psm.ps_id pid))
                psm.ps_id with
            | none => exact absurd hf2 (ps_findprocess_spawned_ne_none _ _ _)
            | some q =>
                exact ps_inet_cmd_start_existing htag hstart hstop hf2

/-- C5 witness: two STARTs for `idA` from the empty registry with a
successful spawn leave exactly one record, the second returning 1. -/
theorem c5_witness :
    List.countP (fun p => p.psp_id = idA) spawnedReg = 1 ∧
    ps_inet_cmd { ctx0 with ps_processes := spawnedReg } env0
      ⟨PS_BOOTP ||| PS_START, idA⟩ = (CmdResult.ok 1, spawnedReg) :=
  (c5_idempotent_start ctx0 env0 env0 ⟨PS_BOOTP ||| PS_START, idA⟩
    (Or.inl (by decide)) (by decide) (by decide)).2 (by decide) 123
    spawnedReg (by decide)

/-- C6: when `ps_dostart` fails on a START request, the pending record is
discarded, the caller observes a `-1` return carrying the spawn's errno
cause, and the registry is exactly as before the request, containing no
record for the key. -/
theorem c6_spawn_failure_atomic (ctx : Ctx) (env : Env) (psm : PsMsghdr)
    (e : Errno)
    (htag : stripCmd psm.ps_cmd = PS_BOOTP ∨ stripCmd psm.ps_cmd = PS_DHCP6)
    (hstart : psm.ps_cmd &&& PS_START ≠ 0)
    (hstop : psm.ps_cmd &&& PS_STOP = 0)
    (hfind : ps_findprocess ctx.ps_processes psm.ps_id = none)
    (halloc : env.alloc = none)
    (hdo : env.dostart = .error e) :
    ps_inet_cmd ctx env psm = (CmdResult.err e, ctx.ps_processes) ∧
    ps_findprocess (ps_inet_cmd ctx env psm).2 psm.ps_id = none := by
  have hmain : ps_inet_cmd ctx env psm =
      (CmdResult.err e, ctx.ps_processes) := by
    rw [ps_inet_cmd_start_spawnfail htag hstart hstop hfind halloc hdo,
      ps_freeprocess_append_pending hfind]
  refine ⟨hmain, ?_⟩
  rw [hmain]
  exact hfind

/-- C6 witness: a START for `idA` on the empty registry whose spawn fails
with `ENOMEM` returns that cause and leaves the registry empty. -/
theorem c6_witness :
    ps_findprocess ctx0.ps_processes idA = none ∧
    ps_inet_cmd ctx0 envSpawnFail ⟨PS_BOOTP ||| PS_START, idA⟩ =
      (CmdResult.err .ENOMEM, []) :=
  ⟨by decide,
   (c6_spawn_failure_atomic ctx0 envSpawnFail ⟨PS_BOOTP ||| PS_START, idA⟩
      .ENOMEM (Or.inl (by decide)) (by decide) (by decide) (by decide)
      rfl rfl).1⟩

/-- C10: the EINVAL branch of `ps_inet_cmd` for a lifecycle request without
START is dead code: a 16-bit command word changed by flag stripping and
without the STOP bit necessarily has the START bit; consequently an EINVAL
result of `ps_inet_cmd` can only come from the data path or from an
environment-injected cause, never from that branch. -/
theorem c10_einval_branch_unreachable :
    (∀ c : Nat, c < 65536 → stripCmd c ≠ c → c &&& PS_STOP = 0 →
      c &&& PS_START ≠ 0) ∧
    (∀ (ctx : Ctx) (env : Env) (psm : PsMsghdr), psm.ps_cmd < 65536 →
      (ps_inet_cmd ctx env psm).1 = CmdResult.err .EINVAL →
      stripCmd psm.ps_cmd = psm.ps_cmd ∨ env.alloc = some .EINVAL ∨
        env.dostart = .error .EINVAL) := by
  refine ⟨fun c hlt hne hstop => start_set_of_lifecycle_no_stop hlt hne hstop,
    ?_⟩
  intro ctx env psm hlt h
  by_cases hdata : stripCmd psm.ps_cmd = psm.ps_cmd
  · exact Or.inl hdata
  · by_cases hstop : psm.ps_cmd &&& PS_STOP ≠ 0
    · cases hf : ps_findprocess ctx.ps_processes psm.ps_id <;>
        simp [ps_inet_cmd, hdata, hstop, hf] at h
    · have hstop0 : psm.ps_cmd &&& PS_STOP = 0 := not_ne_iff.mp hstop
      by_cases htag : stripCmd psm.ps_cmd = PS_BOOTP ∨
          stripCmd psm.ps_cmd = PS_DHCP6
      · have hstart := start_set_of_lifecycle_no_stop hlt hdata hstop0
        cases hf : ps_findprocess ctx.ps_processes psm.ps_id with
        | some p =>
            rw [ps_inet_cmd_start_existing htag hstart hstop0 hf] at h
            simp at h
        | none =>
            cases halloc : env.alloc with
            | some e1 =>
                rw [ps_inet_cmd_start_allocfail htag hstart hstop0 hf
                  halloc] at h
                simp at h
                subst h
                exact Or.inr (Or.inl rfl)
            | none =>
                cases hdo : env.dostart with
                | error e2 =>
                    rw [ps_inet_cmd_start_spawnfail htag hstart hstop0 hf
                      halloc hdo] at h
                    simp at h
                    subst h
                    exact Or.inr (Or.inr rfl)
                | ok pid =>
                    rw [ps_inet_cmd_start_spawn htag hstart hstop0 hf
                      halloc hdo] at h
                    simp at h
      · simp [ps_inet_cmd, hdata, hstop0, htag] at h

/-- C10 witness: the bit-level fact applied at the concrete lifecycle
command word `PS_START ||| PS_BOOTP`. -/
theorem c10_witness :
    (0x4001 : Nat) &&& PS_START ≠ 0 :=
  c10_einval_branch_unreachable.1 0x4001 (by decide) (by decide) (by decide)

/-- C8: `ps_inet_startcb` treats per-protocol failures as degradation, not
as fatal: it returns `-1` with `ENXIOCode` exactly when zero sockets were
opened and errno is still 0, and otherwise returns the count of sockets
successfully opened (so a process that opened at least one default socket,
or that failed some opens, still starts); the final descriptors are the
per-block outcomes; an enabled block that contributes nothing leaves its
descriptor at `-1` with errno set, a contributing block contributes exactly
its opened descriptor; and errno, once set, is never cleared by a later
block. -/
theorem c8_startcb_degrades (ctx : Ctx) (env : StartEnv) :
    ((ps_inet_startcb ctx env).1 = .error .ENXIOCode ↔
      startcb_count ctx env = 0 ∧ startcb_errno ctx env = none) ∧
    (startcb_count ctx env ≠ 0 ∨ startcb_errno ctx env ≠ none →
      (ps_inet_startcb ctx env).1 =
        .ok (Int.ofNat (startcb_count ctx env))) ∧
    ((ps_inet_startcb ctx env).2.udp_rfd = (startcb_inet ctx env).1 ∧
     (ps_inet_startcb ctx env).2.nd_fd = (startcb_nd ctx env).1 ∧
     (ps_inet_startcb ctx env).2.dhcp6_rfd = (startcb_dhcp6 ctx env).1) ∧
    (∀ (pf : Int) (oR : Except Errno Int) (cR aR : Int → Option Errno)
        (e : Option Errno),
      ((ps_open_default pf true oR cR aR e).2.2 = 0 →
        (ps_open_default pf true oR cR aR e).1 = -1 ∧
        (ps_open_default pf true oR cR aR e).2.1 ≠ none) ∧
      ((ps_open_default pf true oR cR aR e).2.2 ≠ 0 →
        ∃ fd, oR = .ok fd ∧ (ps_open_default pf true oR cR aR e).1 = fd ∧
          (ps_open_default pf true oR cR aR e).2.2 = 1)) ∧
    (∀ (pf : Int) (en : Bool) (oR : Except Errno Int)
        (cR aR : Int → Option Errno) (e : Option Errno), e ≠ none →
      (ps_open_default pf en oR cR aR e).2.1 ≠ none) := by
  have hmain : ps_inet_startcb ctx env =
      (if startcb_count ctx env = 0 ∧ startcb_errno ctx env = none
       then .error .ENXIOCode
       else .ok (Int.ofNat (startcb_count ctx env)),
       { ctx with
         ps_data_fd := -1, udp_rfd := (startcb_inet ctx env).1, nd_fd := (startcb_nd ctx env).1, dhcp6_rfd := (startcb_dhcp6 ctx env).1 }) := by
    by_cases h : startcb_count ctx env = 0 ∧ startcb_errno ctx env = none
    · simp only [startcb_count, startcb_errno] at h
      simp only [ps_inet_startcb, startcb_count, startcb_errno]
      rw [if_pos h, if_pos h]
    · simp only [startcb_count, startcb_errno] at h
      simp only [ps_inet_startcb, startcb_count, startcb_errno]
      rw [if_neg h, if_neg h]
  refine ⟨?_, ?_, ?_, ?_, ?_⟩
  · rw [hmain]
    by_cases h : startcb_count ctx env = 0 ∧ startcb_errno ctx env = none <;>
      simp [h]
  · intro h
    rw [hmain]
    have h2 : ¬(startcb_count ctx env = 0 ∧ startcb_errno ctx env = none) := by
      tauto
    simp [h2]
  · exact ⟨by rw [hmain], by rw [hmain], by rw [hmain]⟩
  · intro pf oR cR aR e
    cases oR with
    | error e1 => simp [ps_open_default]
    | ok fd =>
        cases hc : cR fd with
        | some e1 =>
            by_cases he : e1 = Errno.ENOSYS
            · cases ha : aR fd with
              | some e2 => simp [ps_open_default, hc, he, ha]
              | none => simp [ps_open_default, hc, he, ha]
            · simp [ps_open_default, hc, he]
        | none =>
            cases ha : aR fd with
            | some e2 => simp [ps_open_default, hc, ha]
            | none => simp [ps_open_default, hc, ha]
  · intro pf en oR cR aR e he
    cases en with
    | false => simpa [ps_open_default] using he
    | true =>
        cases oR with
        | error e1 => simp [ps_open_default]
        | ok fd =>
            cases hc : cR fd with
            | some e1 =>
                by_cases hen : e1 = Errno.ENOSYS
                · cases ha : aR fd with
                  | some e2 => simp [ps_open_default, hc, hen, ha]
                  | none => simp [ps_open_default, hc, hen, ha]
                · simp [ps_open_default, hc, hen]
            | none =>
                cases ha : aR fd with
                | some e2 => simp [ps_open_default, hc, ha]
                | none => simpa [ps_open_default, hc, ha] using he

/-- C8 witness: with the UDP open failing and the other two protocols
succeeding, the callback still starts the process, returning the count 2. -/
theorem c8_witness :
    startcb_count ctx0 senvUdpFail ≠ 0 ∧
    (ps_inet_startcb ctx0 senvUdpFail).1 =
      .ok (Int.ofNat (startcb_count ctx0 senvUdpFail)) :=
  ⟨by decide, (c8_startcb_degrades ctx0 senvUdpFail).2.1 (Or.inl (by decide))⟩

end PrivsepInet
